import Mathlib

/-!
A shallow embedding of the point-of-sale server's route handlers
(`src/server/routes/sales.ts`, `purchases.ts`, `quotations.ts`,
`pc-builder.ts`, and the passport local strategy in `src/server/index.ts`).

Modelling conventions:
* SQL decimal columns are rationals (`Rat`); integer columns are `Int`;
  primary keys are `Nat`.
* Each table with a primary/unique key is a partial map from the key to the
  row (the row type omits the key column and bookkeeping timestamps such as
  `updatedAt`); insert-only tables touched by these flows are lists.
* `new Date()` within a single request is one timestamp `now : Nat`.
* A handler takes the request payload and the database and returns the
  response (`Except ErrResp α`, carrying the HTTP status and message on
  failure) together with the database after all of the handler's writes.
* `bcrypt.compare(password, storedHash)` is modelled as string equality of
  the supplied password against the stored credential.
-/

namespace POS

/-- HTTP error response: status code plus the `error` message body. -/
structure ErrResp where
  status : Nat
  error : String
deriving DecidableEq

/-- A line item of a sale-creation request body (`POST /api/sales`). -/
structure SaleReqItem where
  productId : Nat
  variantId : Option Nat
  serialNumber : Option String
  quantity : Int
  unitPrice : Rat
  costPrice : Rat
deriving DecidableEq

/-- A payment entry of a sale-creation request body. -/
structure PaymentReq where
  method : String
  amount : Rat
  reference : Option String
  cashGiven : Option Rat
  change : Option Rat
deriving DecidableEq

/-- The `POST /api/sales` request body. `discount`/`tax` default to 0 and
`customerId`/`payments`/`notes` to absent in the route; absence is `none`
resp. the caller passing 0. -/
structure SaleRequest where
  customerId : Option Nat
  items : List SaleReqItem
  discount : Rat
  tax : Rat
  payments : Option (List PaymentReq)
  notes : Option String
deriving DecidableEq

/-- `products` table row (key: id). -/
structure ProductRow where
  stock : Int
  costPrice : Rat
  sellingPrice : Rat
deriving DecidableEq

/-- `serial_numbers` table row (key: the unique serial string). -/
structure SerialRow where
  productId : Nat
  status : String
  saleId : Option Nat
  customerId : Option Nat
deriving DecidableEq

/-- `customers` table row (key: id). -/
structure CustomerRow where
  totalSpent : Rat
  loyaltyPoints : Int
  lastPurchase : Option Nat
deriving DecidableEq

/-- `sales` table row. -/
structure SaleRow where
  id : Nat
  invoiceNumber : String
  customerId : Option Nat
  userId : Nat
  subtotal : Rat
  discount : Rat
  tax : Rat
  total : Rat
  profit : Rat
  status : String
  paymentStatus : String
  notes : Option String
  createdAt : Nat
deriving DecidableEq

/-- `sale_items` table row. -/
structure SaleItemRow where
  saleId : Nat
  productId : Nat
  variantId : Option Nat
  serialNumber : Option String
  quantity : Int
  unitPrice : Rat
  costPrice : Rat
  total : Rat
  profit : Rat
deriving DecidableEq

/-- `payments` table row. -/
structure PaymentRow where
  saleId : Nat
  method : String
  amount : Rat
  reference : Option String
  cashGiven : Option Rat
  change : Option Rat
  createdAt : Nat
deriving DecidableEq

/-- `purchases` table row (key: id). -/
structure PurchaseRow where
  supplierId : Option Nat
  userId : Nat
  invoiceNumber : Option String
  total : Rat
  paid : Rat
  balance : Rat
  status : String
  documents : Option String
deriving DecidableEq

/-- `purchase_items` table row. -/
structure PurchaseItemRow where
  purchaseId : Nat
  productId : Nat
  variantId : Option Nat
  quantity : Int
  unitCost : Rat
  total : Rat
  serialNumbers : Option (List String)
deriving DecidableEq

/-- `suppliers` table row (key: id). -/
structure SupplierRow where
  balance : Rat
deriving DecidableEq

/-- `quotations` table row (key: id). -/
structure QuotationRow where
  customerId : Option Nat
  quoteNumber : String
  discount : Rat
  tax : Rat
  status : String
deriving DecidableEq

/-- `quote_items` table row. -/
structure QuoteItemRow where
  quoteId : Nat
  productId : Nat
  variantId : Option Nat
  quantity : Int
  unitPrice : Rat
deriving DecidableEq

/-- One component of a PC build's `components` JSON array. -/
structure PCComponent where
  productId : Nat
  quantity : Int
deriving DecidableEq

/-- `pc_builds` table row (key: id). -/
structure PCBuildRow where
  name : String
  customerId : Option Nat
  components : List PCComponent
  status : String
deriving DecidableEq

/-- `rmas` table row (key: id). -/
structure RMARow where
  serialNumber : Option String
  status : String
  notes : Option String
deriving DecidableEq

/-- `users` table row (key: the unique email). `password` stores the
credential checked by `bcrypt.compare`, modelled as string equality. -/
structure UserRow where
  password : String
  isActive : Bool
deriving DecidableEq

/-- The database state the modelled handlers read and write. -/
structure DB where
  products : Nat → Option ProductRow
  serialNumbers : String → Option SerialRow
  customers : Nat → Option CustomerRow
  suppliers : Nat → Option SupplierRow
  quotations : Nat → Option QuotationRow
  pcBuilds : Nat → Option PCBuildRow
  rmas : Nat → Option RMARow
  purchases : Nat → Option PurchaseRow
  sales : List SaleRow
  saleItems : List SaleItemRow
  payments : List PaymentRow
  purchaseItems : List PurchaseItemRow
  quoteItems : List QuoteItemRow
  nextId : Nat

/-! ## Sale creation (`POST /api/sales`, sales.ts lines 157–267) -/

/-- `subtotal += Number(item.unitPrice) * Number(item.quantity)` summed. -/
def computeSubtotal (items : List SaleReqItem) : Rat :=
  (items.map (fun i => i.unitPrice * (i.quantity : Rat))).sum

/-- `totalProfit += (unitPrice - costPrice) * quantity` summed. -/
def computeProfit (items : List SaleReqItem) : Rat :=
  (items.map (fun i => (i.unitPrice - i.costPrice) * (i.quantity : Rat))).sum

/-- `total = subtotal - Number(discount) + Number(tax)`. -/
def saleTotal (req : SaleRequest) : Rat :=
  computeSubtotal req.items - req.discount + req.tax

/-- The inserted `sales` row: status `'completed'` and paymentStatus
`'paid'` are hard-coded in the insert. -/
def newSaleRow (req : SaleRequest) (userId now saleId : Nat) : SaleRow :=
  { id := saleId
    invoiceNumber := "INV-" ++ toString now
    customerId := req.customerId
    userId := userId
    subtotal := computeSubtotal req.items
    discount := req.discount
    tax := req.tax
    total := saleTotal req
    profit := computeProfit req.items
    status := "completed"
    paymentStatus := "paid"
    notes := req.notes
    createdAt := now }

/-- The serial-number update of the per-item loop: status `'sold'`,
`saleId` and `customerId` attached. -/
def setSold (saleId : Nat) (cid : Option Nat) (s : SerialRow) : SerialRow :=
  { s with status := "sold", saleId := some saleId, customerId := cid }

/-- `UPDATE serial_numbers SET ... WHERE serial_number = sn` when the item
carries a serial; no-op otherwise. -/
def applySerialUpdate (sn? : Option String) (saleId : Nat) (cid : Option Nat)
    (db : DB) : DB :=
  match sn? with
  | some sn =>
      { db with serialNumbers := fun k =>
          (if k = sn then (db.serialNumbers k).map (setSold saleId cid)
           else db.serialNumbers k) }
  | none => db

/-- One iteration of the per-item loop: insert the `sale_items` row,
decrement the product's stock by the quantity (unconditionally), and update
the serial number if supplied. -/
def applySaleItem (saleId : Nat) (cid : Option Nat) (db : DB)
    (item : SaleReqItem) : DB :=
  let db1 := { db with saleItems := db.saleItems ++
      [({ saleId := saleId,
          productId := item.productId,
          variantId := item.variantId,
          serialNumber := item.serialNumber,
          quantity := item.quantity,
          unitPrice := item.unitPrice,
          costPrice := item.costPrice,
          total := item.unitPrice * (item.quantity : Rat),
          profit := (item.unitPrice - item.costPrice) * (item.quantity : Rat) } :
        SaleItemRow)] }
  let db2 := { db1 with products := fun k =>
      (if k = item.productId then
        (db1.products k).map (fun p => { p with stock := p.stock - item.quantity })
       else db1.products k) }
  applySerialUpdate item.serialNumber saleId cid db2

/-- Inserting one `payments` row. -/
def appendPayment (saleId now : Nat) (db : DB) (p : PaymentReq) : DB :=
  { db with payments := db.payments ++
      [({ saleId := saleId, method := p.method, amount := p.amount,
          reference := p.reference, cashGiven := p.cashGiven,
          change := p.change, createdAt := now } : PaymentRow)] }

/-- The customer-stats update: `totalSpent += total`,
`loyaltyPoints += Math.floor(total / 100)`, `lastPurchase = new Date()`;
no-op when no customer was specified. -/
def applyCustomerStats (cid? : Option Nat) (total : Rat) (now : Nat)
    (db : DB) : DB :=
  match cid? with
  | some cid =>
      { db with customers := fun k =>
          (if k = cid then
            (db.customers k).map (fun c =>
              { c with totalSpent := c.totalSpent + total,
                       lastPurchase := some now,
                       loyaltyPoints := c.loyaltyPoints + Int.floor (total / 100) })
           else db.customers k) }
  | none => db

/-- `POST /api/sales`: reject an empty/absent item list with 400, else
insert the sale, loop over items (sale-item row, stock decrement, serial
update), insert payments, and update customer stats. -/
def createSale (req : SaleRequest) (userId now : Nat) (db : DB) :
    Except ErrResp SaleRow × DB :=
  if req.items = [] then
    (.error ⟨400, "Sale items are required"⟩, db)
  else
    let sale := newSaleRow req userId now db.nextId
    let db1 := { db with sales := db.sales ++ [sale], nextId := db.nextId + 1 }
    let db2 := req.items.foldl (applySaleItem db.nextId req.customerId) db1
    let db3 := (req.payments.getD []).foldl (appendPayment db.nextId now) db2
    let db4 := applyCustomerStats req.customerId (saleTotal req) now db3
    (.ok sale, db4)

/-! ## Purchase creation and update (`purchases.ts` lines 120–226) -/

/-- A line item of a purchase-creation request body. -/
structure PurchaseReqItem where
  productId : Nat
  variantId : Option Nat
  quantity : Int
  unitCost : Rat
  serialNumbers : Option (List String)
deriving DecidableEq

/-- The `POST /api/purchases` request body. -/
structure PurchaseRequest where
  supplierId : Option Nat
  invoiceNumber : Option String
  items : List PurchaseReqItem
  documents : Option String
deriving DecidableEq

/-- `total += Number(item.unitCost) * Number(item.quantity)` summed. -/
def purchaseTotal (items : List PurchaseReqItem) : Rat :=
  (items.map (fun i => i.unitCost * (i.quantity : Rat))).sum

/-- The inserted `purchases` row: `paid = '0'`, `balance = total`,
status `'pending'`. -/
def newPurchaseRow (req : PurchaseRequest) (userId : Nat) : PurchaseRow :=
  { supplierId := req.supplierId
    userId := userId
    invoiceNumber := req.invoiceNumber
    total := purchaseTotal req.items
    paid := 0
    balance := purchaseTotal req.items
    status := "pending"
    documents := req.documents }

/-- One iteration of the purchase per-item loop: insert the
`purchase_items` row, then increment the product's stock by the quantity
and overwrite its cost price with the item's unit cost. -/
def applyPurchaseItem (purchaseId : Nat) (db : DB) (item : PurchaseReqItem) :
    DB :=
  let db1 := { db with purchaseItems := db.purchaseItems ++
      [({ purchaseId := purchaseId,
          productId := item.productId,
          variantId := item.variantId,
          quantity := item.quantity,
          unitCost := item.unitCost,
          total := item.unitCost * (item.quantity : Rat),
          serialNumbers := item.serialNumbers } : PurchaseItemRow)] }
  { db1 with products := fun k =>
      (if k = item.productId then
        (db1.products k).map (fun p =>
          { p with stock := p.stock + item.quantity, costPrice := item.unitCost })
       else db1.products k) }

/-- `POST /api/purchases`: reject an empty/absent item list with 400, else
insert the purchase row and loop over items. No write touches the
`suppliers` table in this handler. -/
def createPurchase (req : PurchaseRequest) (userId : Nat) (db : DB) :
    Except ErrResp PurchaseRow × DB :=
  if req.items = [] then
    (.error ⟨400, "Purchase items are required"⟩, db)
  else
    let pur := newPurchaseRow req userId
    let db1 := { db with
      purchases := fun k => (if k = db.nextId then some pur else db.purchases k),
      nextId := db.nextId + 1 }
    (.ok pur, req.items.foldl (applyPurchaseItem db.nextId) db1)

/-- The `PUT /api/purchases/:id` request body (`status`, `paid`,
`documents`, each optional). -/
structure PurchaseUpdateReq where
  status : Option String
  paid : Option Rat
  documents : Option String
deriving DecidableEq

/-- The updated purchase row built from the defined body fields; a defined
`paid` also recomputes `balance = total - paid`. -/
def updatedPurchaseRow (pur : PurchaseRow) (body : PurchaseUpdateReq) :
    PurchaseRow :=
  let p1 := match body.status with
    | some s => { pur with status := s }
    | none => pur
  let p2 := match body.documents with
    | some d => { p1 with documents := some d }
    | none => p1
  match body.paid with
  | some p => { p2 with paid := p, balance := pur.total - p }
  | none => p2

/-- `PUT /api/purchases/:id`: 404 when the id is unknown; else overwrite
the row from the body, and when `paid` is defined and the paid delta is
non-zero, subtract the delta from the supplier's balance. -/
def updatePurchase (id : Nat) (body : PurchaseUpdateReq) (db : DB) :
    Except ErrResp PurchaseRow × DB :=
  match db.purchases id with
  | none => (.error ⟨404, "Purchase not found"⟩, db)
  | some pur =>
    let pur3 := updatedPurchaseRow pur body
    let db1 := { db with purchases := fun k =>
        (if k = id then some pur3 else db.purchases k) }
    let db2 := match body.paid with
      | some p =>
        let paidAmount := p - pur.paid
        if paidAmount ≠ 0 then
          match pur.supplierId with
          | some sid =>
              { db1 with suppliers := fun k =>
                  (if k = sid then
                    (db1.suppliers k).map (fun s =>
                      { s with balance := s.balance - paidAmount })
                   else db1.suppliers k) }
          | none => db1
        else db1
      | none => db1
    (.ok pur3, db2)

/-! ## Convert-to-sale endpoints (`quotations.ts` 218–276,
`pc-builder.ts` 183–235) -/

/-- The computed (and returned, never persisted) sale payload of the
convert-to-sale endpoints; its items carry no serial numbers. -/
structure SaleData where
  customerId : Option Nat
  items : List SaleReqItem
  discount : Rat
  tax : Rat
  payments : Option (List PaymentReq)
  notes : String
deriving DecidableEq

/-- `saleNotes || defaultNote` — JavaScript `||` treats the empty string
as falsy. -/
def notesOr (s? : Option String) (dflt : String) : String :=
  match s? with
  | some s => if s = "" then dflt else s
  | none => dflt

/-- The quote items joined with products, mapped to sale items
(`costPrice = item.product?.costPrice || 0`). -/
def quoteSaleItems (id : Nat) (db : DB) : List SaleReqItem :=
  (db.quoteItems.filter (fun qi => qi.quoteId = id)).map (fun qi =>
    { productId := qi.productId
      variantId := qi.variantId
      serialNumber := none
      quantity := qi.quantity
      unitPrice := qi.unitPrice
      costPrice := ((db.products qi.productId).map (fun p => p.costPrice)).getD 0 })

/-- `POST /api/quotations/:id/convert-to-sale`: 404 when unknown; else
compute the sale payload, set the quotation's status to `'converted'`, and
return the payload without persisting any sale. -/
def convertQuotationToSale (id : Nat) (payments : Option (List PaymentReq))
    (saleNotes : Option String) (db : DB) :
    Except ErrResp (String × SaleData) × DB :=
  match db.quotations id with
  | none => (.error ⟨404, "Quotation not found"⟩, db)
  | some quote =>
    let saleData : SaleData :=
      { customerId := quote.customerId
        items := quoteSaleItems id db
        discount := quote.discount
        tax := quote.tax
        payments := payments
        notes := notesOr saleNotes ("Converted from Quotation: " ++ quote.quoteNumber) }
    let db1 := { db with quotations := fun k =>
        (if k = id then some { quote with status := "converted" }
         else db.quotations k) }
    (.ok ("Quotation converted to sale successfully", saleData), db1)

/-- The PC build's components resolved against products; components whose
product is missing are skipped. -/
def buildSaleItems (b : PCBuildRow) (db : DB) : List SaleReqItem :=
  b.components.filterMap (fun comp =>
    (db.products comp.productId).map (fun p =>
      { productId := comp.productId
        variantId := none
        serialNumber := none
        quantity := comp.quantity
        unitPrice := p.sellingPrice
        costPrice := p.costPrice }))

/-- `POST /api/pc-builder/:id/convert-to-sale`: 404 when unknown; else
compute the sale payload, set the build's status to `'purchased'`, and
return the payload without persisting any sale. -/
def convertBuildToSale (id : Nat) (discount tax : Rat)
    (payments : Option (List PaymentReq)) (saleNotes : Option String)
    (db : DB) : Except ErrResp (String × SaleData) × DB :=
  match db.pcBuilds id with
  | none => (.error ⟨404, "PC build not found"⟩, db)
  | some b =>
    let saleData : SaleData :=
      { customerId := b.customerId
        items := buildSaleItems b db
        discount := discount
        tax := tax
        payments := payments
        notes := notesOr saleNotes ("Converted from PC Build: " ++ b.name) }
    let db1 := { db with pcBuilds := fun k =>
        (if k = id then some { b with status := "purchased" }
         else db.pcBuilds k) }
    (.ok ("PC build converted to sale successfully", saleData), db1)

/-! ## RMA status update (`quotations.ts` lines 707–747) -/

/-- The serial status derived from the new RMA status: `'returned'` →
`'available'`, `'rejected'` → `'sold'`, anything else → `'rma'`. -/
def rmaSerialStatus (status : String) : String :=
  if status = "returned" then "available"
  else if status = "rejected" then "sold"
  else "rma"

/-- `PUT /api/rma/:id`: 404 when the id is unknown; else overwrite status
and notes (no legality check on the transition), and when the RMA has a
linked serial number set that serial's status from the new RMA status. -/
def updateRMA (id : Nat) (status : String) (notes : Option String)
    (db : DB) : Except ErrResp RMARow × DB :=
  match db.rmas id with
  | none => (.error ⟨404, "RMA not found"⟩, db)
  | some r =>
    let updated := { r with status := status, notes := notes }
    let db1 := { db with rmas := fun k =>
        (if k = id then some updated else db.rmas k) }
    match r.serialNumber with
    | some sn =>
        (.ok updated,
         { db1 with serialNumbers := fun k =>
             (if k = sn then
               (db1.serialNumbers k).map (fun s =>
                 { s with status := rmaSerialStatus status })
              else db1.serialNumbers k) })
    | none => (.ok updated, db1)

/-! ## Login (`index.ts` lines 60–85, passport LocalStrategy) -/

/-- The passport local strategy: unknown email and failed password compare
both yield `'Invalid email or password'`; a matching password on an
inactive account yields `'Account is deactivated'`. The login route
returns these messages with a 401. -/
def verifyLogin (email password : String)
    (usersTbl : String → Option UserRow) : Except String UserRow :=
  match usersTbl email with
  | none => .error "Invalid email or password"
  | some u =>
    if password = u.password then
      (if u.isActive then .ok u else .error "Account is deactivated")
    else .error "Invalid email or password"

/-! ## Helper functions used by theorem statements -/

/-- Total quantity of the sale items referencing product `pid`. -/
def qtyFor (pid : Nat) (items : List SaleReqItem) : Int :=
  ((items.filter (fun i => i.productId = pid)).map (fun i => i.quantity)).sum

/-- Total quantity of the purchase items referencing product `pid`. -/
def pqtyFor (pid : Nat) (items : List PurchaseReqItem) : Int :=
  ((items.filter (fun i => i.productId = pid)).map (fun i => i.quantity)).sum

/-- Effect of one sale item on the product row stored at key `pid`. -/
def saleStockStep (pid : Nat) (p : ProductRow) (i : SaleReqItem) : ProductRow :=
  if i.productId = pid then { p with stock := p.stock - i.quantity } else p

/-- Effect of one sale item on the serial row stored at key `sn`. -/
def saleSerialStep (sn : String) (saleId : Nat) (cid : Option Nat)
    (s : SerialRow) (i : SaleReqItem) : SerialRow :=
  if i.serialNumber = some sn then setSold saleId cid s else s

/-- Effect of one purchase item on the product row stored at key `pid`. -/
def purchaseStep (pid : Nat) (p : ProductRow) (i : PurchaseReqItem) :
    ProductRow :=
  if i.productId = pid then
    { p with stock := p.stock + i.quantity, costPrice := i.unitCost }
  else p

/-- A sequence of sale creations: each element is a request with the
acting user id and the request timestamp. -/
def processSales (reqs : List (SaleRequest × Nat × Nat)) (db : DB) : DB :=
  reqs.foldl (fun d r => (createSale r.1 r.2.1 r.2.2 d).2) db

/-- The customer-row transformation of one completed sale with the given
total at the given time. -/
def updC (total : Rat) (now : Nat) (c : CustomerRow) : CustomerRow :=
  { c with totalSpent := c.totalSpent + total
           lastPurchase := some now
           loyaltyPoints := c.loyaltyPoints + Int.floor (total / 100) }

/-! ## Concrete example state for witnesses -/

/-- An example database: one product (stock 1), one serial, one customer,
one supplier, one quotation with one quote item, one PC build, one RMA,
one recorded purchase. -/
def exDB : DB :=
  { products := fun k =>
      (if k = 1 then some { stock := 1, costPrice := 100, sellingPrice := 150 }
       else none)
    serialNumbers := fun k =>
      (if k = "SN1" then
        some { productId := 1, status := "available", saleId := none, customerId := none }
       else none)
    customers := fun k =>
      (if k = 7 then some { totalSpent := 0, loyaltyPoints := 0, lastPurchase := none }
       else none)
    suppliers := fun k => (if k = 3 then some { balance := 0 } else none)
    quotations := fun k =>
      (if k = 4 then
        some { customerId := some 7, quoteNumber := "Q-1", discount := 10,
               tax := 5, status := "sent" }
       else none)
    pcBuilds := fun k =>
      (if k = 5 then
        some { name := "B1", customerId := some 7,
               components := [{ productId := 1, quantity := 2 }],
               status := "draft" }
       else none)
    rmas := fun k =>
      (if k = 6 then
        some { serialNumber := some "SN1", status := "under_review", notes := none }
       else none)
    purchases := fun k =>
      (if k = 8 then
        some { supplierId := some 3, userId := 1, invoiceNumber := some "P-1",
               total := 500, paid := 0, balance := 500, status := "pending",
               documents := none }
       else none)
    sales := []
    saleItems := []
    payments := []
    purchaseItems := []
    quoteItems := [{ quoteId := 4, productId := 1, variantId := none,
                     quantity := 2, unitPrice := 150 }]
    nextId := 100 }

/-- An example sale request: two units of product 1 at 150 with cost 100,
serial SN1, discount 20, tax 10, one payment, for customer 7. -/
def exSaleReq : SaleRequest :=
  { customerId := some 7
    items := [{ productId := 1, variantId := none, serialNumber := some "SN1",
                quantity := 2, unitPrice := 150, costPrice := 100 }]
    discount := 20
    tax := 10
    payments := some [{ method := "cash", amount := 290, reference := none,
                        cashGiven := none, change := none }]
    notes := none }

/-- The example sale request with an empty item list. -/
def exEmptySaleReq : SaleRequest :=
  { customerId := some 7, items := [], discount := 0, tax := 0,
    payments := none, notes := none }

/-- The example sale request with no customer specified. -/
def exNoCustSaleReq : SaleRequest :=
  { customerId := none
    items := [{ productId := 1, variantId := none, serialNumber := none,
                quantity := 1, unitPrice := 150, costPrice := 100 }]
    discount := 0
    tax := 0
    payments := none
    notes := none }

/-- An example purchase request: three units of product 1 at cost 120 from
supplier 3. -/
def exPurchaseReq : PurchaseRequest :=
  { supplierId := some 3
    invoiceNumber := some "PINV-1"
    items := [{ productId := 1, variantId := none, quantity := 3,
                unitCost := 120, serialNumbers := none }]
    documents := none }

/-- An example purchase update recording a payment of 200. -/
def exPayBody : PurchaseUpdateReq :=
  { status := none, paid := some 200, documents := none }

/-- An example users table with one deactivated account. -/
def exUsers : String → Option UserRow := fun e =>
  if e = "inactive@x" then some { password := "pw1", isActive := false }
  else none

/-! ## Frame lemmas for the sale-creation workflow -/

lemma applySerialUpdate_sales (sn? : Option String) (sid : Nat)
    (cid : Option Nat) (db : DB) :
    (applySerialUpdate sn? sid cid db).sales = db.sales := by
  cases sn? <;> rfl

lemma applySerialUpdate_customers (sn? : Option String) (sid : Nat)
    (cid : Option Nat) (db : DB) :
    (applySerialUpdate sn? sid cid db).customers = db.customers := by
  cases sn? <;> rfl

lemma applySaleItem_sales (sid : Nat) (cid : Option Nat) (db : DB)
    (it : SaleReqItem) : (applySaleItem sid cid db it).sales = db.sales := by
  unfold applySaleItem
  rw [applySerialUpdate_sales]

lemma applySaleItem_customers (sid : Nat) (cid : Option Nat) (db : DB)
    (it : SaleReqItem) :
    (applySaleItem sid cid db it).customers = db.customers := by
  unfold applySaleItem
  rw [applySerialUpdate_customers]

lemma foldl_applySaleItem_sales (sid : Nat) (cid : Option Nat)
    (l : List SaleReqItem) : ∀ db : DB,
    (l.foldl (applySaleItem sid cid) db).sales = db.sales := by
  induction l with
  | nil => intro db; rfl
  | cons a t ih => intro db; rw [List.foldl_cons, ih, applySaleItem_sales]

lemma foldl_applySaleItem_customers (sid : Nat) (cid : Option Nat)
    (l : List SaleReqItem) : ∀ db : DB,
    (l.foldl (applySaleItem sid cid) db).customers = db.customers := by
  induction l with
  | nil => intro db; rfl
  | cons a t ih => intro db; rw [List.foldl_cons, ih, applySaleItem_customers]

lemma foldl_appendPayment_sales (sid now : Nat) (l : List PaymentReq) :
    ∀ db : DB, (l.foldl (appendPayment sid now) db).sales = db.sales := by
  induction l with
  | nil => intro db; rfl
  | cons a t ih => intro db; rw [List.foldl_cons, ih]; rfl

lemma foldl_appendPayment_customers (sid now : Nat) (l : List PaymentReq) :
    ∀ db : DB, (l.foldl (appendPayment sid now) db).customers = db.customers := by
  induction l with
  | nil => intro db; rfl
  | cons a t ih => intro db; rw [List.foldl_cons, ih]; rfl

lemma foldl_appendPayment_products (sid now : Nat) (l : List PaymentReq) :
    ∀ db : DB, (l.foldl (appendPayment sid now) db).products = db.products := by
  induction l with
  | nil => intro db; rfl
  | cons a t ih => intro db; rw [List.foldl_cons, ih]; rfl

lemma foldl_appendPayment_serialNumbers (sid now : Nat) (l : List PaymentReq) :
    ∀ db : DB,
    (l.foldl (appendPayment sid now) db).serialNumbers = db.serialNumbers := by
  induction l with
  | nil => intro db; rfl
  | cons a t ih => intro db; rw [List.foldl_cons, ih]; rfl

lemma applyCustomerStats_sales (cid? : Option Nat) (total : Rat) (now : Nat)
    (db : DB) : (applyCustomerStats cid? total now db).sales = db.sales := by
  cases cid? <;> rfl

lemma applyCustomerStats_products (cid? : Option Nat) (total : Rat)
    (now : Nat) (db : DB) :
    (applyCustomerStats cid? total now db).products = db.products := by
  cases cid? <;> rfl

lemma applyCustomerStats_serialNumbers (cid? : Option Nat) (total : Rat)
    (now : Nat) (db : DB) :
    (applyCustomerStats cid? total now db).serialNumbers = db.serialNumbers := by
  cases cid? <;> rfl

lemma createSale_eq {req : SaleRequest} (uid now : Nat) (db : DB)
    (h : req.items ≠ []) :
    createSale req uid now db =
      (.ok (newSaleRow req uid now db.nextId),
       applyCustomerStats req.customerId (saleTotal req) now
         ((req.payments.getD []).foldl (appendPayment db.nextId now)
           (req.items.foldl (applySaleItem db.nextId req.customerId)
             { db with sales := db.sales ++ [newSaleRow req uid now db.nextId],
                       nextId := db.nextId + 1 }))) := by
  unfold createSale
  rw [if_neg h]

/-! ## C1, C3, C10 -/

/-- C1: for every sale-creation request with a non-empty item list, the
persisted sale row has `subtotal = Σ unitPrice·quantity`,
`profit = Σ (unitPrice − costPrice)·quantity`, and
`total = subtotal − discount + tax`. -/
theorem sale_totals_correct (req : SaleRequest) (userId now : Nat) (db : DB)
    (h : req.items ≠ []) :
    ∃ sale db', createSale req userId now db = (.ok sale, db') ∧
      db'.sales = db.sales ++ [sale] ∧
      sale.subtotal =
        (req.items.map (fun i => i.unitPrice * (i.quantity : Rat))).sum ∧
      sale.profit =
        (req.items.map (fun i =>
          (i.unitPrice - i.costPrice) * (i.quantity : Rat))).sum ∧
      sale.total = sale.subtotal - req.discount + req.tax := by
  refine ⟨_, _, createSale_eq userId now db h, ?_, rfl, rfl, rfl⟩
  rw [applyCustomerStats_sales, foldl_appendPayment_sales,
    foldl_applySaleItem_sales]

theorem sale_totals_correct_witness :
    exSaleReq.items ≠ [] ∧
    ∃ sale db', createSale exSaleReq 1 5 exDB = (.ok sale, db') ∧
      db'.sales = exDB.sales ++ [sale] ∧
      sale.subtotal =
        (exSaleReq.items.map (fun i => i.unitPrice * (i.quantity : Rat))).sum ∧
      sale.profit =
        (exSaleReq.items.map (fun i =>
          (i.unitPrice - i.costPrice) * (i.quantity : Rat))).sum ∧
      sale.total = sale.subtotal - exSaleReq.discount + exSaleReq.tax :=
  ⟨by decide, sale_totals_correct exSaleReq 1 5 exDB (by decide)⟩

/-- C3: a sale-creation request with an empty (or absent) item list is
rejected with a 400 validation error and the database is unchanged: no
sale, sale-item, payment, product, serial, or customer row is written. -/
theorem empty_sale_rejected (req : SaleRequest) (uid now : Nat) (db : DB)
    (h : req.items = []) :
    createSale req uid now db = (.error ⟨400, "Sale items are required"⟩, db) := by
  unfold createSale
  rw [if_pos h]

theorem empty_sale_rejected_witness :
    exEmptySaleReq.items = [] ∧
    createSale exEmptySaleReq 1 5 exDB =
      (.error ⟨400, "Sale items are required"⟩, exDB) :=
  ⟨by decide, empty_sale_rejected exEmptySaleReq 1 5 exDB (by decide)⟩

/-- C10: every successfully created sale row has status `'completed'` and
paymentStatus `'paid'`, regardless of the payments list. -/
theorem sale_marked_completed_paid (req : SaleRequest) (uid now : Nat)
    (db : DB) (sale : SaleRow) (db' : DB)
    (h : createSale req uid now db = (.ok sale, db')) :
    sale.status = "completed" ∧ sale.paymentStatus = "paid" := by
  by_cases he : req.items = []
  · unfold createSale at h
    rw [if_pos he] at h
    simp at h
  · rw [createSale_eq uid now db he, Prod.mk.injEq] at h
    obtain ⟨h1, -⟩ := h
    injection h1 with h2
    subst h2
    exact ⟨rfl, rfl⟩

theorem sale_marked_completed_paid_witness :
    (newSaleRow exSaleReq 1 5 exDB.nextId).status = "completed" ∧
    (newSaleRow exSaleReq 1 5 exDB.nextId).paymentStatus = "paid" :=
  sale_marked_completed_paid exSaleReq 1 5 exDB _ _
    (createSale_eq 1 5 exDB (by decide))

/-! ## Effect of the per-item loop on products and serial numbers -/

lemma applySerialUpdate_products (sn? : Option String) (sid : Nat)
    (cid : Option Nat) (db : DB) :
    (applySerialUpdate sn? sid cid db).products = db.products := by
  cases sn? <;> rfl

lemma applySaleItem_products_key (sid : Nat) (cid : Option Nat) (db : DB)
    (it : SaleReqItem) (pid : Nat) :
    (applySaleItem sid cid db it).products pid =
      (db.products pid).map (fun p => saleStockStep pid p it) := by
  unfold applySaleItem
  rw [applySerialUpdate_products]
  by_cases h : pid = it.productId
  · subst h
    simp [saleStockStep]
  · simp [saleStockStep, h, Ne.symm h]

lemma foldl_applySaleItem_products (sid : Nat) (cid : Option Nat)
    (l : List SaleReqItem) : ∀ (db : DB) (pid : Nat),
    (l.foldl (applySaleItem sid cid) db).products pid =
      (db.products pid).map (fun p => l.foldl (saleStockStep pid) p) := by
  induction l with
  | nil => intro db pid; simp
  | cons a t ih =>
    intro db pid
    rw [List.foldl_cons, ih, applySaleItem_products_key]
    cases db.products pid <;> rfl

lemma foldl_saleStockStep_stock (pid : Nat) (l : List SaleReqItem) :
    ∀ p : ProductRow,
    (l.foldl (saleStockStep pid) p).stock = p.stock - qtyFor pid l := by
  induction l with
  | nil => intro p; simp [qtyFor]
  | cons a t ih =>
    intro p
    rw [List.foldl_cons, ih]
    unfold saleStockStep qtyFor
    by_cases h : a.productId = pid
    · simp [List.filter_cons, h]
      ring
    · simp [List.filter_cons, h]

lemma applySaleItem_serial_key (sid : Nat) (cid : Option Nat) (db : DB)
    (it : SaleReqItem) (sn : String) :
    (applySaleItem sid cid db it).serialNumbers sn =
      (db.serialNumbers sn).map (fun s => saleSerialStep sn sid cid s it) := by
  unfold applySaleItem
  cases hsn : it.serialNumber with
  | none => simp [applySerialUpdate, saleSerialStep, hsn]
  | some sn' =>
    by_cases h : sn = sn'
    · subst h
      simp [applySerialUpdate, saleSerialStep, hsn]
    · simp [applySerialUpdate, saleSerialStep, hsn, h, Ne.symm h]

lemma foldl_applySaleItem_serial (sid : Nat) (cid : Option Nat)
    (l : List SaleReqItem) : ∀ (db : DB) (sn : String),
    (l.foldl (applySaleItem sid cid) db).serialNumbers sn =
      (db.serialNumbers sn).map (fun s => l.foldl (saleSerialStep sn sid cid) s) := by
  induction l with
  | nil => intro db sn; simp
  | cons a t ih =>
    intro db sn
    rw [List.foldl_cons, ih, applySaleItem_serial_key]
    cases db.serialNumbers sn <;> rfl

lemma saleSerialStep_setSold (sn : String) (sid : Nat) (cid : Option Nat)
    (s : SerialRow) (a : SaleReqItem) :
    saleSerialStep sn sid cid (setSold sid cid s) a = setSold sid cid s := by
  unfold saleSerialStep
  split <;> rfl

lemma foldl_saleSerialStep_setSold (sn : String) (sid : Nat)
    (cid : Option Nat) (l : List SaleReqItem) : ∀ s : SerialRow,
    l.foldl (saleSerialStep sn sid cid) (setSold sid cid s) =
      setSold sid cid s := by
  induction l with
  | nil => intro s; rfl
  | cons a t ih => intro s; rw [List.foldl_cons, saleSerialStep_setSold, ih]

lemma foldl_saleSerialStep_of_mem (sn : String) (sid : Nat)
    (cid : Option Nat) (l : List SaleReqItem)
    (h : ∃ i ∈ l, i.serialNumber = some sn) : ∀ s : SerialRow,
    l.foldl (saleSerialStep sn sid cid) s = setSold sid cid s := by
  induction l with
  | nil => exact absurd h (by simp)
  | cons a t ih =>
    intro s
    rw [List.foldl_cons]
    by_cases ha : a.serialNumber = some sn
    · rw [show saleSerialStep sn sid cid s a = setSold sid cid s from by
        unfold saleSerialStep; rw [if_pos ha]]
      exact foldl_saleSerialStep_setSold sn sid cid t s
    · have ht : ∃ i ∈ t, i.serialNumber = some sn := by
        obtain ⟨i, hi, hisn⟩ := h
        rcases List.mem_cons.mp hi with rfl | hit
        · exact absurd hisn ha
        · exact ⟨i, hit, hisn⟩
      rw [show saleSerialStep sn sid cid s a = s from by
        unfold saleSerialStep; rw [if_neg ha]]
      exact ih ht s

/-! ## C2 -/

/-- C2: for every successful sale creation, each referenced product's
stock is decremented by the total quantity of the items naming it (with no
floor-at-zero check, the stock being an unconstrained integer), and every
serial number supplied by an item ends with status `'sold'` and the new
sale's id and the request's customer attached. -/
theorem stock_decrement_and_serial_sold (req : SaleRequest) (uid now : Nat)
    (db : DB) (h : req.items ≠ []) :
    ∃ sale db', createSale req uid now db = (.ok sale, db') ∧
      (∀ pid, (db'.products pid).map (fun p => p.stock) =
        (db.products pid).map (fun p => p.stock - qtyFor pid req.items)) ∧
      (∀ sn, (∃ i ∈ req.items, i.serialNumber = some sn) →
        db'.serialNumbers sn =
          (db.serialNumbers sn).map (setSold sale.id req.customerId)) := by
  refine ⟨_, _, createSale_eq uid now db h, ?_, ?_⟩
  · intro pid
    rw [applyCustomerStats_products, foldl_appendPayment_products,
      foldl_applySaleItem_products]
    cases db.products pid with
    | none => rfl
    | some p => simp [foldl_saleStockStep_stock]
  · intro sn hsn
    rw [applyCustomerStats_serialNumbers, foldl_appendPayment_serialNumbers,
      foldl_applySaleItem_serial]
    cases db.serialNumbers sn with
    | none => rfl
    | some s => simp [foldl_saleSerialStep_of_mem _ _ _ _ hsn, newSaleRow]

theorem stock_decrement_and_serial_sold_witness :
    exSaleReq.items ≠ [] ∧
    ∃ sale db', createSale exSaleReq 1 5 exDB = (.ok sale, db') ∧
      (∀ pid, (db'.products pid).map (fun p => p.stock) =
        (exDB.products pid).map (fun p => p.stock - qtyFor pid exSaleReq.items)) ∧
      (∀ sn, (∃ i ∈ exSaleReq.items, i.serialNumber = some sn) →
        db'.serialNumbers sn =
          (exDB.serialNumbers sn).map (setSold sale.id exSaleReq.customerId)) :=
  ⟨by decide, stock_decrement_and_serial_sold exSaleReq 1 5 exDB (by decide)⟩

/-! ## Customer-stats lemmas -/

lemma createSale_snd {req : SaleRequest} (uid now : Nat) (db : DB)
    (h : req.items ≠ []) :
    (createSale req uid now db).2 =
      applyCustomerStats req.customerId (saleTotal req) now
        ((req.payments.getD []).foldl (appendPayment db.nextId now)
          (req.items.foldl (applySaleItem db.nextId req.customerId)
            { db with sales := db.sales ++ [newSaleRow req uid now db.nextId],
                      nextId := db.nextId + 1 })) := by
  rw [createSale_eq uid now db h]

lemma applyCustomerStats_none (total : Rat) (now : Nat) (db : DB) :
    applyCustomerStats none total now db = db := rfl

lemma applyCustomerStats_customers_some (cid : Nat) (total : Rat)
    (now : Nat) (db : DB) :
    (applyCustomerStats (some cid) total now db).customers cid =
      (db.customers cid).map (updC total now) := by
  simp [applyCustomerStats]
  rfl

lemma createSale_customers_some {req : SaleRequest} (uid now : Nat)
    (db : DB) (cid : Nat) (h : req.items ≠ [])
    (hc : req.customerId = some cid) :
    (createSale req uid now db).2.customers cid =
      (db.customers cid).map (updC (saleTotal req) now) := by
  rw [createSale_snd uid now db h, hc, applyCustomerStats_customers_some,
    foldl_appendPayment_customers, foldl_applySaleItem_customers]

lemma createSale_customers_none {req : SaleRequest} (uid now : Nat)
    (db : DB) (h : req.items ≠ []) (hc : req.customerId = none) :
    (createSale req uid now db).2.customers = db.customers := by
  rw [createSale_snd uid now db h, hc, applyCustomerStats_none,
    foldl_appendPayment_customers, foldl_applySaleItem_customers]

lemma processSales_customer (cid : Nat)
    (reqs : List (SaleRequest × Nat × Nat)) : ∀ db : DB,
    (∀ r ∈ reqs, r.1.items ≠ [] ∧ r.1.customerId = some cid) →
    (processSales reqs db).customers cid =
      (db.customers cid).map (fun c =>
        reqs.foldl (fun c r => updC (saleTotal r.1) r.2.2 c) c) := by
  induction reqs with
  | nil => intro db _; simp [processSales]
  | cons r t ih =>
    intro db hall
    have h1 := (hall r (List.mem_cons_self r t)).1
    have h2 := (hall r (List.mem_cons_self r t)).2
    have hrest : ∀ x ∈ t, x.1.items ≠ [] ∧ x.1.customerId = some cid :=
      fun x hx => hall x (List.mem_cons_of_mem r hx)
    show ((r :: t).foldl (fun d x => (createSale x.1 x.2.1 x.2.2 d).2)
        db).customers cid = _
    rw [List.foldl_cons]
    rw [show (t.foldl (fun d x => (createSale x.1 x.2.1 x.2.2 d).2)
        ((createSale r.1 r.2.1 r.2.2 db).2)) =
        processSales t ((createSale r.1 r.2.1 r.2.2 db).2) from rfl]
    rw [ih ((createSale r.1 r.2.1 r.2.2 db).2) hrest,
      createSale_customers_some r.2.1 r.2.2 db cid h1 h2]
    cases db.customers cid <;> rfl

lemma foldl_updC_totalSpent (reqs : List (SaleRequest × Nat × Nat)) :
    ∀ c : CustomerRow,
    (reqs.foldl (fun c r => updC (saleTotal r.1) r.2.2 c) c).totalSpent =
      c.totalSpent + (reqs.map (fun r => saleTotal r.1)).sum := by
  induction reqs with
  | nil => intro c; simp
  | cons r t ih =>
    intro c
    rw [List.foldl_cons, ih]
    simp [updC]
    ring

lemma foldl_updC_loyalty (reqs : List (SaleRequest × Nat × Nat)) :
    ∀ c : CustomerRow,
    (reqs.foldl (fun c r => updC (saleTotal r.1) r.2.2 c) c).loyaltyPoints =
      c.loyaltyPoints +
        (reqs.map (fun r => Int.floor (saleTotal r.1 / 100))).sum := by
  induction reqs with
  | nil => intro c; simp
  | cons r t ih =>
    intro c
    rw [List.foldl_cons, ih]
    simp [updC]
    ring

/-! ## C5 -/

/-- C5: a successful sale with a customer adds exactly the sale's total to
`totalSpent`, `⌊total/100⌋` to `loyaltyPoints`, and sets `lastPurchase` to
the sale's creation time; over a sequence of such sales the running totals
are the sums of the per-sale amounts; a sale without a customer mutates no
customer row. -/
theorem customer_stats_additive :
    (∀ (req : SaleRequest) (uid now : Nat) (db : DB) (cid : Nat)
        (c : CustomerRow),
      req.items ≠ [] → req.customerId = some cid →
      db.customers cid = some c →
      ∃ sale db', createSale req uid now db = (.ok sale, db') ∧
        sale.createdAt = now ∧ sale.total = saleTotal req ∧
        db'.customers cid = some (updC (saleTotal req) now c)) ∧
    (∀ (reqs : List (SaleRequest × Nat × Nat)) (db : DB) (cid : Nat)
        (c : CustomerRow),
      (∀ r ∈ reqs, r.1.items ≠ [] ∧ r.1.customerId = some cid) →
      db.customers cid = some c →
      ((processSales reqs db).customers cid).map (fun x => x.totalSpent) =
        some (c.totalSpent + (reqs.map (fun r => saleTotal r.1)).sum) ∧
      ((processSales reqs db).customers cid).map (fun x => x.loyaltyPoints) =
        some (c.loyaltyPoints +
          (reqs.map (fun r => Int.floor (saleTotal r.1 / 100))).sum)) ∧
    (∀ (req : SaleRequest) (uid now : Nat) (db : DB),
      req.items ≠ [] → req.customerId = none →
      (createSale req uid now db).2.customers = db.customers) := by
  refine ⟨?_, ?_, ?_⟩
  · intro req uid now db cid c h hc hcust
    refine ⟨newSaleRow req uid now db.nextId, (createSale req uid now db).2,
      ?_, rfl, rfl, ?_⟩
    · rw [createSale_eq uid now db h]
    · rw [createSale_customers_some uid now db cid h hc, hcust]
      rfl
  · intro reqs db cid c hall hcust
    rw [processSales_customer cid reqs db hall, hcust]
    constructor
    · simp [foldl_updC_totalSpent]
    · simp [foldl_updC_loyalty]
  · intro req uid now db h hc
    exact createSale_customers_none uid now db h hc

theorem customer_stats_additive_witness :
    (∃ sale db', createSale exSaleReq 1 5 exDB = (.ok sale, db') ∧
      sale.createdAt = 5 ∧ sale.total = saleTotal exSaleReq ∧
      db'.customers 7 = some (updC (saleTotal exSaleReq) 5
        { totalSpent := 0, loyaltyPoints := 0, lastPurchase := none })) ∧
    (((processSales [(exSaleReq, 1, 5)] exDB).customers 7).map
        (fun x => x.totalSpent) =
      some ((0 : Rat) + ([(exSaleReq, 1, 5)].map (fun r => saleTotal r.1)).sum) ∧
     ((processSales [(exSaleReq, 1, 5)] exDB).customers 7).map
        (fun x => x.loyaltyPoints) =
      some ((0 : Int) +
        ([(exSaleReq, 1, 5)].map (fun r => Int.floor (saleTotal r.1 / 100))).sum)) ∧
    (createSale exNoCustSaleReq 1 5 exDB).2.customers = exDB.customers :=
  ⟨customer_stats_additive.1 exSaleReq 1 5 exDB 7
      { totalSpent := 0, loyaltyPoints := 0, lastPurchase := none }
      (by decide) (by decide) (by decide),
   customer_stats_additive.2.1 [(exSaleReq, 1, 5)] exDB 7
      { totalSpent := 0, loyaltyPoints := 0, lastPurchase := none }
      (by decide) (by decide),
   customer_stats_additive.2.2 exNoCustSaleReq 1 5 exDB (by decide) rfl⟩

/-! ## C4 -/

/-- C4: a PUT on an existing RMA id succeeds for any status string (no
transition-legality check), and when the RMA has a linked serial number
that serial's status becomes `'available'` for `'returned'`, `'sold'` for
`'rejected'`, and `'rma'` for every other status value. -/
theorem rma_update_any_status (id : Nat) (status : String)
    (notes : Option String) (db : DB) (r : RMARow)
    (h : db.rmas id = some r) :
    ∃ db', updateRMA id status notes db =
        (.ok { r with status := status, notes := notes }, db') ∧
      db'.rmas id = some { r with status := status, notes := notes } ∧
      (∀ sn, r.serialNumber = some sn →
        (db'.serialNumbers sn).map (fun s => s.status) =
          (db.serialNumbers sn).map (fun _ =>
            if status = "returned" then "available"
            else if status = "rejected" then "sold"
            else "rma")) ∧
      (r.serialNumber = none → db'.serialNumbers = db.serialNumbers) := by
  simp only [updateRMA, h]
  cases hs : r.serialNumber with
  | none =>
    refine ⟨_, rfl, by simp, ?_, fun _ => rfl⟩
    intro sn hsn
    exact absurd hsn (by simp)
  | some sn' =>
    refine ⟨_, rfl, by simp, ?_, ?_⟩
    · intro sn hsn
      injection hsn with hsn
      subst hsn
      simp only []
      by_cases hret : status = "returned"
      · simp [rmaSerialStatus, hret]
        cases db.serialNumbers sn' <;> simp
      · by_cases hrej : status = "rejected"
        · simp [rmaSerialStatus, hret, hrej]
          cases db.serialNumbers sn' <;> simp
        · simp [rmaSerialStatus, hret, hrej]
          cases db.serialNumbers sn' <;> simp
    · intro hnone
      exact absurd hnone (by simp)

theorem rma_update_any_status_witness :
    exDB.rmas 6 = some { serialNumber := some "SN1",
                         status := "under_review", notes := none } ∧
    ∃ db', updateRMA 6 "approved" none exDB =
        (.ok { serialNumber := some "SN1", status := "approved",
               notes := none }, db') ∧
      db'.rmas 6 = some { serialNumber := some "SN1", status := "approved",
                          notes := none } ∧
      (∀ sn, (some "SN1" : Option String) = some sn →
        (db'.serialNumbers sn).map (fun s => s.status) =
          (exDB.serialNumbers sn).map (fun _ =>
            if "approved" = "returned" then "available"
            else if "approved" = "rejected" then "sold"
            else "rma")) ∧
      ((some "SN1" : Option String) = none →
        db'.serialNumbers = exDB.serialNumbers) :=
  ⟨by decide,
   rma_update_any_status 6 "approved" none exDB
     { serialNumber := some "SN1", status := "under_review", notes := none }
     (by decide)⟩

/-! ## C6 (corrected) -/

/-- C6 counterexample: two failed logins — one with an unknown email, one
with the correct password on a deactivated account — carry different error
messages, so the failure causes are distinguishable to the caller. -/
theorem login_message_leak_counterexample :
    verifyLogin "unknown@x" "pw1" exUsers = .error "Invalid email or password" ∧
    verifyLogin "inactive@x" "pw1" exUsers = .error "Account is deactivated" ∧
    ("Invalid email or password" : String) ≠ "Account is deactivated" :=
  ⟨rfl, rfl, by decide⟩

/-- C6 amended: an unknown email and a wrong password both yield the same
generic `'Invalid email or password'` message, but an inactive account
with a correct password yields the distinct `'Account is deactivated'`
message. -/
theorem login_messages_amended :
    (∀ (email pw : String) (tbl : String → Option UserRow),
      tbl email = none →
      verifyLogin email pw tbl = .error "Invalid email or password") ∧
    (∀ (email pw : String) (tbl : String → Option UserRow) (u : UserRow),
      tbl email = some u → pw ≠ u.password →
      verifyLogin email pw tbl = .error "Invalid email or password") ∧
    (∀ (email pw : String) (tbl : String → Option UserRow) (u : UserRow),
      tbl email = some u → pw = u.password → u.isActive = false →
      verifyLogin email pw tbl = .error "Account is deactivated") := by
  refine ⟨?_, ?_, ?_⟩
  · intro email pw tbl h
    simp [verifyLogin, h]
  · intro email pw tbl u h hpw
    simp [verifyLogin, h, hpw]
  · intro email pw tbl u h hpw hact
    simp [verifyLogin, h, hpw, hact]

theorem login_messages_amended_witness :
    verifyLogin "unknown@x" "z" exUsers = .error "Invalid email or password" ∧
    verifyLogin "inactive@x" "wrong" exUsers =
      .error "Invalid email or password" ∧
    verifyLogin "inactive@x" "pw1" exUsers = .error "Account is deactivated" :=
  ⟨login_messages_amended.1 "unknown@x" "z" exUsers rfl,
   login_messages_amended.2.1 "inactive@x" "wrong" exUsers
     { password := "pw1", isActive := false } rfl (by decide),
   login_messages_amended.2.2 "inactive@x" "pw1" exUsers
     { password := "pw1", isActive := false } rfl rfl rfl⟩

/-! ## Purchase lemmas -/

lemma createPurchase_eq {req : PurchaseRequest} (uid : Nat) (db : DB)
    (h : req.items ≠ []) :
    createPurchase req uid db =
      (.ok (newPurchaseRow req uid),
       req.items.foldl (applyPurchaseItem db.nextId)
         { db with
           purchases := fun k =>
             (if k = db.nextId then some (newPurchaseRow req uid)
              else db.purchases k),
           nextId := db.nextId + 1 }) := by
  unfold createPurchase
  rw [if_neg h]

lemma applyPurchaseItem_suppliers (pid : Nat) (db : DB)
    (it : PurchaseReqItem) :
    (applyPurchaseItem pid db it).suppliers = db.suppliers := rfl

lemma foldl_applyPurchaseItem_suppliers (pid : Nat)
    (l : List PurchaseReqItem) : ∀ db : DB,
    (l.foldl (applyPurchaseItem pid) db).suppliers = db.suppliers := by
  induction l with
  | nil => intro db; rfl
  | cons a t ih => intro db; rw [List.foldl_cons, ih, applyPurchaseItem_suppliers]

lemma applyPurchaseItem_products_key (pid' : Nat) (db : DB)
    (it : PurchaseReqItem) (pid : Nat) :
    (applyPurchaseItem pid' db it).products pid =
      (db.products pid).map (fun p => purchaseStep pid p it) := by
  unfold applyPurchaseItem
  by_cases h : pid = it.productId
  · subst h
    simp [purchaseStep]
  · simp [purchaseStep, h, Ne.symm h]

lemma foldl_applyPurchaseItem_products (pid' : Nat)
    (l : List PurchaseReqItem) : ∀ (db : DB) (pid : Nat),
    (l.foldl (applyPurchaseItem pid') db).products pid =
      (db.products pid).map (fun p => l.foldl (purchaseStep pid) p) := by
  induction l with
  | nil => intro db pid; simp
  | cons a t ih =>
    intro db pid
    rw [List.foldl_cons, ih, applyPurchaseItem_products_key]
    cases db.products pid <;> rfl

lemma foldl_purchaseStep_stock (pid : Nat) (l : List PurchaseReqItem) :
    ∀ p : ProductRow,
    (l.foldl (purchaseStep pid) p).stock = p.stock + pqtyFor pid l := by
  induction l with
  | nil => intro p; simp [pqtyFor]
  | cons a t ih =>
    intro p
    rw [List.foldl_cons, ih]
    unfold purchaseStep pqtyFor
    by_cases h : a.productId = pid
    · simp [List.filter_cons, h]
      ring
    · simp [List.filter_cons, h]

lemma cons_getLast?_getD (l : List Rat) : ∀ a d : Rat,
    ((a :: l).getLast?).getD d = (l.getLast?).getD a := by
  induction l with
  | nil => intro a d; rfl
  | cons b t ih =>
    intro a d
    rw [List.getLast?_cons_cons, ih b d, ih b a]

lemma foldl_purchaseStep_cost (pid : Nat) (l : List PurchaseReqItem) :
    ∀ p : ProductRow,
    (l.foldl (purchaseStep pid) p).costPrice =
      (((l.filter (fun i => i.productId = pid)).map
        (fun i => i.unitCost)).getLast?).getD p.costPrice := by
  induction l with
  | nil => intro p; rfl
  | cons a t ih =>
    intro p
    rw [List.foldl_cons, ih]
    by_cases h : a.productId = pid
    · simp only [List.filter_cons, h, decide_True, if_true, List.map_cons,
        cons_getLast?_getD]
      rw [show (purchaseStep pid p a).costPrice = a.unitCost from by
        unfold purchaseStep; rw [if_pos h]]
    · rw [show purchaseStep pid p a = p from by
        unfold purchaseStep; rw [if_neg h]]
      simp [List.filter_cons, h]

/-! ## C7 (corrected) -/

/-- C7 counterexample: a successful purchase creation naming supplier 3
leaves the suppliers table — in particular supplier 3's balance —
unchanged, so the creation workflow does not mutate the supplier's
balance. -/
theorem purchase_creation_supplier_counterexample :
    (createPurchase exPurchaseReq 1 exDB).1 =
      .ok (newPurchaseRow exPurchaseReq 1) ∧
    exPurchaseReq.supplierId = some 3 ∧
    (createPurchase exPurchaseReq 1 exDB).2.suppliers = exDB.suppliers ∧
    ((createPurchase exPurchaseReq 1 exDB).2.suppliers 3).map
      (fun s => s.balance) = some 0 ∧
    (exDB.suppliers 3).map (fun s => s.balance) = some 0 :=
  ⟨rfl, rfl, rfl, rfl, rfl⟩

/-- C7 amended: purchase creation never touches the suppliers table (the
owed amount is recorded on the purchase row itself as `balance = total`,
`paid = 0`); the supplier's balance is mutated only by payment recording
(`PUT /api/purchases/:id` with `paid` defined), which subtracts the change
in the paid amount. -/
theorem supplier_balance_amended :
    (∀ (req : PurchaseRequest) (uid : Nat) (db : DB),
      (createPurchase req uid db).2.suppliers = db.suppliers) ∧
    (∀ (id : Nat) (body : PurchaseUpdateReq) (db : DB) (pur : PurchaseRow)
        (sid : Nat) (s : SupplierRow) (p : Rat),
      db.purchases id = some pur → pur.supplierId = some sid →
      body.paid = some p → p - pur.paid ≠ 0 → db.suppliers sid = some s →
      (updatePurchase id body db).2.suppliers sid =
        some { s with balance := s.balance - (p - pur.paid) }) := by
  constructor
  · intro req uid db
    by_cases h : req.items = []
    · unfold createPurchase
      rw [if_pos h]
    · rw [createPurchase_eq uid db h]
      rw [foldl_applyPurchaseItem_suppliers]
  · intro id body db pur sid s p hpur hsid hpaid hne hsupp
    simp only [updatePurchase, hpur, hpaid, hsid]
    rw [if_pos hne]
    simp [hsupp]

theorem supplier_balance_amended_witness :
    (createPurchase exPurchaseReq 1 exDB).2.suppliers = exDB.suppliers ∧
    (updatePurchase 8 exPayBody exDB).2.suppliers 3 =
      some { balance := (0 : Rat) - (200 - 0) } :=
  ⟨supplier_balance_amended.1 exPurchaseReq 1 exDB,
   supplier_balance_amended.2 8 exPayBody exDB
     { supplierId := some 3, userId := 1, invoiceNumber := some "P-1",
       total := 500, paid := 0, balance := 500, status := "pending",
       documents := none }
     3 { balance := 0 } 200 (by decide) rfl rfl (by norm_num) (by decide)⟩

/-! ## C8 -/

/-- C8: for every successful purchase creation, each referenced product's
stock is incremented by the total quantity of the items naming it, its
cost price is overwritten by the last such item's unit cost (last write
wins), and the persisted purchase total is `Σ unitCost·quantity`. -/
theorem purchase_effects (req : PurchaseRequest) (uid : Nat) (db : DB)
    (h : req.items ≠ []) :
    ∃ pur db', createPurchase req uid db = (.ok pur, db') ∧
      pur.total =
        (req.items.map (fun i => i.unitCost * (i.quantity : Rat))).sum ∧
      (∀ pid, (db'.products pid).map (fun p => p.stock) =
        (db.products pid).map (fun p => p.stock + pqtyFor pid req.items)) ∧
      (∀ pid, (db'.products pid).map (fun p => p.costPrice) =
        (db.products pid).map (fun p =>
          (((req.items.filter (fun i => i.productId = pid)).map
            (fun i => i.unitCost)).getLast?).getD p.costPrice)) := by
  refine ⟨_, _, createPurchase_eq uid db h, rfl, ?_, ?_⟩
  · intro pid
    rw [foldl_applyPurchaseItem_products]
    cases db.products pid with
    | none => rfl
    | some p => simp [foldl_purchaseStep_stock]
  · intro pid
    rw [foldl_applyPurchaseItem_products]
    cases db.products pid with
    | none => rfl
    | some p => simp [foldl_purchaseStep_cost]

theorem purchase_effects_witness :
    exPurchaseReq.items ≠ [] ∧
    ∃ pur db', createPurchase exPurchaseReq 1 exDB = (.ok pur, db') ∧
      pur.total =
        (exPurchaseReq.items.map (fun i => i.unitCost * (i.quantity : Rat))).sum ∧
      (∀ pid, (db'.products pid).map (fun p => p.stock) =
        (exDB.products pid).map (fun p => p.stock + pqtyFor pid exPurchaseReq.items)) ∧
      (∀ pid, (db'.products pid).map (fun p => p.costPrice) =
        (exDB.products pid).map (fun p =>
          (((exPurchaseReq.items.filter (fun i => i.productId = pid)).map
            (fun i => i.unitCost)).getLast?).getD p.costPrice)) :=
  ⟨by decide, purchase_effects exPurchaseReq 1 exDB (by decide)⟩

/-! ## C9 -/

/-- C9: the quotation and PC-build convert-to-sale endpoints compute a
sale payload and return it, but persist nothing except the source
record's status (`'converted'` resp. `'purchased'`): the resulting
database equals the input with only that one map entry changed, so no
sale, sale-item, payment, product, serial, or customer row is written. -/
theorem convert_to_sale_discards_payload :
    (∀ (id : Nat) (pays : Option (List PaymentReq))
        (saleNotes : Option String) (db : DB) (q : QuotationRow),
      db.quotations id = some q →
      convertQuotationToSale id pays saleNotes db =
        (.ok ("Quotation converted to sale successfully",
          { customerId := q.customerId
            items := quoteSaleItems id db
            discount := q.discount
            tax := q.tax
            payments := pays
            notes := notesOr saleNotes
              ("Converted from Quotation: " ++ q.quoteNumber) }),
         { db with quotations := fun k =>
             (if k = id then some { q with status := "converted" }
              else db.quotations k) })) ∧
    (∀ (id : Nat) (discount tax : Rat) (pays : Option (List PaymentReq))
        (saleNotes : Option String) (db : DB) (b : PCBuildRow),
      db.pcBuilds id = some b →
      convertBuildToSale id discount tax pays saleNotes db =
        (.ok ("PC build converted to sale successfully",
          { customerId := b.customerId
            items := buildSaleItems b db
            discount := discount
            tax := tax
            payments := pays
            notes := notesOr saleNotes
              ("Converted from PC Build: " ++ b.name) }),
         { db with pcBuilds := fun k =>
             (if k = id then some { b with status := "purchased" }
              else db.pcBuilds k) })) := by
  constructor
  · intro id pays saleNotes db q hq
    simp only [convertQuotationToSale, hq]
  · intro id discount tax pays saleNotes db b hb
    simp only [convertBuildToSale, hb]

theorem convert_to_sale_discards_payload_witness :
    convertQuotationToSale 4 none none exDB =
      (.ok ("Quotation converted to sale successfully",
        { customerId := some 7
          items := quoteSaleItems 4 exDB
          discount := 10
          tax := 5
          payments := none
          notes := notesOr none ("Converted from Quotation: " ++ "Q-1") }),
       { exDB with quotations := fun k =>
           (if k = 4 then
             some { customerId := some 7, quoteNumber := "Q-1",
                    discount := 10, tax := 5, status := "converted" }
            else exDB.quotations k) }) ∧
    convertBuildToSale 5 0 0 none none exDB =
      (.ok ("PC build converted to sale successfully",
        { customerId := some 7
          items := buildSaleItems
            { name := "B1", customerId := some 7,
              components := [{ productId := 1, quantity := 2 }],
              status := "draft" } exDB
          discount := 0
          tax := 0
          payments := none
          notes := notesOr none ("Converted from PC Build: " ++ "B1") }),
       { exDB with pcBuilds := fun k =>
           (if k = 5 then
             some { name := "B1", customerId := some 7,
                    components := [{ productId := 1, quantity := 2 }],
                    status := "purchased" }
            else exDB.pcBuilds k) }) :=
  ⟨convert_to_sale_discards_payload.1 4 none none exDB
     { customerId := some 7, quoteNumber := "Q-1", discount := 10,
       tax := 5, status := "sent" } (by decide),
   convert_to_sale_discards_payload.2 5 0 0 none none exDB
     { name := "B1", customerId := some 7,
       components := [{ productId := 1, quantity := 2 }],
       status := "draft" } (by decide)⟩

end POS
